import Mathlib

/-!
Shallow embedding of the shapy client connection/dispatch/store layer
(`WebSocketService` and `SessionStore` of the Angular frontend).

Modelling conventions:
- TypeScript strings are Lean `String`; TS numbers that the code only
  stores and compares are `Int`; the reconnection-delay arithmetic uses
  `Nat` (all values involved are small positive integers).
- `Date` values are opaque instants modelled as `Int` parameters.
- `crypto.randomUUID()` results are passed in as explicit `String`
  arguments (the draw of a fresh id is an input of the model).
- Angular signals become fields of an explicit state record; every
  signal `update`/`set` becomes a functional record update.
- `socket$ : WebSocketSubject | null` is modelled by the flag
  `socketOpen`; writing to the wire is modelled by returning an
  `Option ClientMsg` next to the successor state.
-/

namespace Shapy

/-- TS `'high' | 'medium' | 'low'` confidence union. -/
inductive Confidence where
  | high
  | medium
  | low
deriving DecidableEq, Repr

/-- TS `'processing' | 'completed' | 'skipped'` status union of reasoning steps. -/
inductive StepStatus where
  | processing
  | completed
  | skipped
deriving DecidableEq, Repr

/-- TS `'user' | 'assistant'` role union of `ChatMessage`. -/
inductive Role where
  | user
  | assistant
deriving DecidableEq, Repr

/-- TS `ConnectionStatus = 'disconnected' | 'connecting' | 'connected' | 'error'`. -/
inductive ConnectionStatus where
  | disconnected
  | connecting
  | connected
  | error
deriving DecidableEq, Repr

/-- TS `VisualizationHint` of websocket.models.ts. -/
structure VisualizationHint where
  highlight_layers : List String
  highlight_color : String
deriving DecidableEq, Repr

/-- TS `CalculationPayload` of websocket.models.ts. -/
structure CalculationPayload where
  calculation_type : String
  result : Int
  unit : String
  limit : Option Int
  compliant : Option Bool
  margin : Option Int
  description : String
  visualization_hint : Option VisualizationHint
deriving DecidableEq, Repr

/-- TS `SourceCitation` of websocket.models.ts (`section` is a Lean keyword,
hence the primed field name). -/
structure SourceCitation where
  section' : String
  page : Option Int
  relevance : Int
deriving DecidableEq, Repr

/-- TS `Assumption` of websocket.models.ts; the `unknown`-typed `value` is
carried opaquely as a string. -/
structure Assumption where
  field : String
  value : String
  confidence : Confidence
deriving DecidableEq, Repr

/-- TS `ReasoningStep` of chat.models.ts (the `Date` is an opaque instant). -/
structure ReasoningStep where
  stepIndex : Int
  node : String
  status : StepStatus
  message : String
  timestamp : Int
deriving DecidableEq, Repr

/-- TS `ChatMessage` of chat.models.ts; optional TS fields become `Option`. -/
structure ChatMessage where
  id : String
  role : Role
  content : String
  timestamp : Int
  isStreaming : Option Bool
  queryType : Option String
  confidence : Option Confidence
  sources : Option (List SourceCitation)
  calculations : Option (List CalculationPayload)
  assumptions : Option (List Assumption)
  suggestedFollowups : Option (List String)
deriving DecidableEq, Repr

/-- TS `ClarificationOption` of websocket.models.ts. -/
structure ClarificationOption where
  label : String
  value : String
  description : Option String
deriving DecidableEq, Repr

/-- TS `ClarificationRequestPayload` of websocket.models.ts. -/
structure ClarificationRequestPayload where
  id : String
  question : String
  why_needed : String
  field_name : String
  options : Option (List ClarificationOption)
  priority : Int
  affects_rules : List String
deriving DecidableEq, Repr

/-- TS `PendingClarification` of chat.models.ts. -/
structure PendingClarification where
  request : ClarificationRequestPayload
  receivedAt : Int
deriving DecidableEq, Repr

/-- TS `TokenPayload` of websocket.models.ts. -/
structure TokenPayload where
  chunk : String
  node : String
  token_index : Int
deriving DecidableEq, Repr

/-- TS `TokensPayload` of websocket.models.ts. -/
structure TokensPayload where
  chunks : List String
  node : String
deriving DecidableEq, Repr

/-- TS `ReasoningStepPayload` of websocket.models.ts (wire timestamp kept
as the opaque instant it is parsed to by `new Date(...)`). -/
structure ReasoningStepPayload where
  step_index : Int
  node : String
  status : StepStatus
  message : String
  timestamp : Int
deriving DecidableEq, Repr

/-- TS `ResponseCompletePayload` of websocket.models.ts. -/
structure ResponseCompletePayload where
  message_id : String
  final_answer : String
  confidence : Confidence
  query_type : String
  sources : List SourceCitation
  calculations : List CalculationPayload
  assumptions : List Assumption
  suggested_followups : List String
deriving DecidableEq, Repr

/-- TS `ErrorPayload` of websocket.models.ts. -/
structure ErrorPayload where
  code : String
  message : String
  recoverable : Bool
deriving DecidableEq, Repr

/-- Client→server envelopes actually built by WebSocketService
(`query`, `clarification_response`, `cancel`, `ping`). -/
inductive ClientMsg where
  | query (content : String) (include_reasoning : Bool)
  | clarificationResponse (question_id : String) (value : String) (text : Option String)
  | cancel
  | ping
deriving DecidableEq, Repr

/-- The SessionStore signal fields that the connection/dispatch layer
reads and writes (session.store.ts). -/
structure SessionStoreState where
  currentSessionId : Option String
  wsStatus : ConnectionStatus
  wsError : Option String
  contextVersion : Int
  messages : List ChatMessage
  reasoningSteps : List ReasoningStep
  isAgentThinking : Bool
  streamingContent : String
  pendingClarification : Option PendingClarification
deriving DecidableEq, Repr

/-- Signal initial values of SessionStore. -/
def SessionStoreState.initial : SessionStoreState :=
  { currentSessionId := none
    wsStatus := ConnectionStatus.disconnected
    wsError := none
    contextVersion := 0
    messages := []
    reasoningSteps := []
    isAgentThinking := false
    streamingContent := ""
    pendingClarification := none }

namespace SessionStoreState

/-- TS `setConnectionStatus(status, error?)`: `wsError.set(error ?? null)`. -/
def setConnectionStatus (st : SessionStoreState) (status : ConnectionStatus)
    (error : Option String) : SessionStoreState :=
  { st with wsStatus := status, wsError := error }

/-- TS `updateContextVersion(version)`. -/
def updateContextVersion (st : SessionStoreState) (version : Int) : SessionStoreState :=
  { st with contextVersion := version }

/-- TS `addUserMessage(content)`: appends a user message with a fresh id
(the id and the `Date` instant are inputs of the model) and returns the id. -/
def addUserMessage (st : SessionStoreState) (content : String) (id : String)
    (now : Int) : SessionStoreState × String :=
  let message : ChatMessage :=
    { id := id
      role := Role.user
      content := content
      timestamp := now
      isStreaming := none
      queryType := none
      confidence := none
      sources := none
      calculations := none
      assumptions := none
      suggestedFollowups := none }
  ({ st with messages := st.messages ++ [message] }, id)

/-- TS `startAssistantMessage()`: appends a streaming assistant placeholder,
sets the thinking flag, resets accumulator and reasoning trace. -/
def startAssistantMessage (st : SessionStoreState) (id : String)
    (now : Int) : SessionStoreState × String :=
  let message : ChatMessage :=
    { id := id
      role := Role.assistant
      content := ""
      timestamp := now
      isStreaming := some true
      queryType := none
      confidence := none
      sources := none
      calculations := none
      assumptions := none
      suggestedFollowups := none }
  ({ st with
      messages := st.messages ++ [message]
      isAgentThinking := true
      streamingContent := ""
      reasoningSteps := [] }, id)

/-- TS `appendToStreamingContent(chunk)`. -/
def appendToStreamingContent (st : SessionStoreState) (chunk : String) : SessionStoreState :=
  { st with streamingContent := st.streamingContent ++ chunk }

end SessionStoreState

/-- The metadata record passed to `finalizeAssistantMessage`; its single
caller (`handleResponseComplete`) lists all six keys, so the object
spread `...metadata` overwrites all six message fields. -/
structure FinalizeMetadata where
  queryType : Option String
  confidence : Option Confidence
  sources : Option (List SourceCitation)
  calculations : Option (List CalculationPayload)
  assumptions : Option (List Assumption)
  suggestedFollowups : Option (List String)
deriving DecidableEq, Repr

namespace SessionStoreState

/-- TS `finalizeAssistantMessage(messageId, finalContent, metadata)`. -/
def finalizeAssistantMessage (st : SessionStoreState) (messageId : String)
    (finalContent : String) (metadata : FinalizeMetadata) : SessionStoreState :=
  { st with
    messages := st.messages.map (fun msg =>
      if msg.id = messageId then
        { msg with
          content := finalContent
          isStreaming := some false
          queryType := metadata.queryType
          confidence := metadata.confidence
          sources := metadata.sources
          calculations := metadata.calculations
          assumptions := metadata.assumptions
          suggestedFollowups := metadata.suggestedFollowups }
      else msg)
    isAgentThinking := false
    streamingContent := "" }

/-- TS `addReasoningStep(step)`: upsert keyed by `stepIndex`
(`findIndex` + in-place overwrite, else push). -/
def addReasoningStep (st : SessionStoreState) (step : ReasoningStep) : SessionStoreState :=
  { st with reasoningSteps :=
      match st.reasoningSteps.findIdx? (fun s => s.stepIndex == step.stepIndex) with
      | some existing => st.reasoningSteps.set existing step
      | none => st.reasoningSteps ++ [step] }

/-- TS `setPendingClarification(request | null)`. -/
def setPendingClarification (st : SessionStoreState)
    (request : Option ClarificationRequestPayload) (now : Int) : SessionStoreState :=
  match request with
  | some req =>
      { st with
        pendingClarification := some { request := req, receivedAt := now }
        isAgentThinking := false }
  | none => { st with pendingClarification := none }

/-- TS `clearChatState()`. -/
def clearChatState (st : SessionStoreState) : SessionStoreState :=
  { st with
    messages := []
    reasoningSteps := []
    isAgentThinking := false
    streamingContent := ""
    pendingClarification := none }

/-- TS `setCurrentSession(sessionId | null)` (drawing-state fields are out
of this model's frame; the chat-state clearing is what matters here). -/
def setCurrentSession (st : SessionStoreState) (sessionId : Option String) : SessionStoreState :=
  match sessionId with
  | some sid => { st with currentSessionId := some sid }
  | none => clearChatState { st with currentSessionId := none }

end SessionStoreState

/-- The mutable fields of WebSocketService: `socket$` is modelled by the
flag `socketOpen`, `pingInterval` by the flag `pingActive`, and the
service owns its copy of `currentSessionId`/`currentMessageId` plus the
injected store. -/
structure ServiceState where
  socketOpen : Bool
  reconnectAttempts : Nat
  pingActive : Bool
  currentSessionId : Option String
  currentMessageId : Option String
  store : SessionStoreState
deriving DecidableEq, Repr

/-- Field initialisers of WebSocketService plus the injected store's
initial signals. -/
def ServiceState.initial : ServiceState :=
  { socketOpen := false
    reconnectAttempts := 0
    pingActive := false
    currentSessionId := none
    currentMessageId := none
    store := SessionStoreState.initial }

/-- TS `maxReconnectAttempts = 5`. -/
def maxReconnectAttempts : Nat := 5

/-- Exhaustion message literal of `handleDisconnect`. -/
def exhaustionMessage : String := "Connection failed after multiple attempts"

namespace ServiceState

/-- TS `stopPingInterval()`. -/
def stopPingInterval (s : ServiceState) : ServiceState :=
  { s with pingActive := false }

/-- TS `startPingInterval()`. -/
def startPingInterval (s : ServiceState) : ServiceState :=
  { s with pingActive := true }

/-- TS `disconnect()`: stop the keepalive, complete and drop the socket,
clear the session binding, transition the store to `disconnected`
(the one-argument `setConnectionStatus` call resets `wsError` to null). -/
def disconnect (s : ServiceState) : ServiceState :=
  let s1 := s.stopPingInterval
  let s2 := { s1 with socketOpen := false, currentSessionId := none }
  { s2 with store := s2.store.setConnectionStatus ConnectionStatus.disconnected none }

/-- The synchronous part of `connect(sessionId, token)`: tear down an
existing socket, bind the session, set status `connecting`, open the
stream. (Resetting the attempt counter and starting the keepalive
happen later, in the `openObserver` callback `socketOpened`.) -/
def connect (s : ServiceState) (sessionId : String) (_token : String) : ServiceState :=
  let s1 := if s.socketOpen then s.disconnect else s
  let s2 := { s1 with currentSessionId := some sessionId }
  let s3 := { s2 with store := s2.store.setConnectionStatus ConnectionStatus.connecting none }
  { s3 with socketOpen := true }

/-- The `openObserver` callback of the socket: reset the attempt counter
and start the keepalive. -/
def socketOpened (s : ServiceState) : ServiceState :=
  ({ s with reconnectAttempts := 0 }).startPingInterval

/-- TS `handleDisconnect()`: if attempts remain and a session is bound,
increment the counter and schedule a retry after
`min(1000 * 2^attempts, 30000)` ms (the scheduled delay is returned);
otherwise transition to `error` with the exhaustion message and
schedule nothing. -/
def handleDisconnect (s : ServiceState) : ServiceState × Option Nat :=
  if s.reconnectAttempts < maxReconnectAttempts ∧ s.currentSessionId.isSome then
    let attempts := s.reconnectAttempts + 1
    let delay := min (1000 * 2 ^ attempts) 30000
    ({ s with reconnectAttempts := attempts }, some delay)
  else
    let st := s.store.setConnectionStatus ConnectionStatus.error (some exhaustionMessage)
    ({ s with store := st }, none)

/-- The callback of the timer scheduled by `handleDisconnect`: it
re-reads the credential (`localStorage.getItem`, an input here) and the
service's `currentSessionId` at fire time, and only then connects. The
returned flag records whether `connect` was performed. -/
def reconnectTimerFire (s : ServiceState) (token : Option String) : ServiceState × Bool :=
  match token, s.currentSessionId with
  | some t, some sid => (s.connect sid t, true)
  | some _, none => (s, false)
  | none, _ => (s, false)

/-- One fire of the keepalive interval: nothing can fire once the
interval is cleared (`pingActive = false`); the callback itself sends
`ping` only while a socket exists. -/
def pingTimerFire (s : ServiceState) : Option ClientMsg :=
  if s.pingActive then
    if s.socketOpen then some ClientMsg.ping else none
  else none

/-- TS `sendQuery(content, includeReasoning)`: silently dropped unless a
socket exists and the store reports `connected`; otherwise adds the
user message, starts the assistant placeholder and writes the `query`
envelope. Fresh ids and the instant are inputs of the model. -/
def sendQuery (s : ServiceState) (content : String) (includeReasoning : Bool)
    (userId assistantId : String) (now : Int) : ServiceState × Option ClientMsg :=
  if ¬ s.socketOpen ∨ s.store.wsStatus ≠ ConnectionStatus.connected then
    (s, none)
  else
    let (st1, mid) := s.store.addUserMessage content userId now
    let (st2, _) := st1.startAssistantMessage assistantId now
    ({ s with currentMessageId := some mid, store := st2 },
      some (ClientMsg.query content includeReasoning))

/-- TS `sendClarificationResponse(questionId, value, text?)`: same guard as
`sendQuery`; clears the pending clarification and starts a fresh
assistant placeholder before writing the envelope. -/
def sendClarificationResponse (s : ServiceState) (questionId : String) (value : String)
    (text : Option String) (assistantId : String) (now : Int) :
    ServiceState × Option ClientMsg :=
  if ¬ s.socketOpen ∨ s.store.wsStatus ≠ ConnectionStatus.connected then
    (s, none)
  else
    let st1 := s.store.setPendingClarification none now
    let (st2, _) := st1.startAssistantMessage assistantId now
    ({ s with store := st2 },
      some (ClientMsg.clarificationResponse questionId value text))

/-- TS `sendCancel()`: sent whenever a socket handle exists, regardless of
connection status. -/
def sendCancel (s : ServiceState) : ServiceState × Option ClientMsg :=
  if ¬ s.socketOpen then (s, none)
  else (s, some ClientMsg.cancel)

/-- TS `handleReasoningStep(payload)`. -/
def handleReasoningStep (s : ServiceState) (payload : ReasoningStepPayload) : ServiceState :=
  let step : ReasoningStep :=
    { stepIndex := payload.step_index
      node := payload.node
      status := payload.status
      message := payload.message
      timestamp := payload.timestamp }
  { s with store := s.store.addReasoningStep step }

/-- TS `handleToken(payload)`. -/
def handleToken (s : ServiceState) (payload : TokenPayload) : ServiceState :=
  { s with store := s.store.appendToStreamingContent payload.chunk }

/-- TS `handleTokens(payload)`: joins all chunks (`chunks.join('')`) and
appends the combined string in a single store mutation. -/
def handleTokens (s : ServiceState) (payload : TokensPayload) : ServiceState :=
  let combined := String.join payload.chunks
  { s with store := s.store.appendToStreamingContent combined }

/-- The metadata object literal built inside `handleResponseComplete`. -/
def metadataOfPayload (payload : ResponseCompletePayload) : FinalizeMetadata :=
  { queryType := some payload.query_type
    confidence := some payload.confidence
    sources := some payload.sources
    calculations := some payload.calculations
    assumptions := some payload.assumptions
    suggestedFollowups := some payload.suggested_followups }

/-- TS `handleResponseComplete(payload)`: reads `messages[messages.length-1]`
and finalizes it whenever it exists and has the assistant role. -/
def handleResponseComplete (s : ServiceState) (payload : ResponseCompletePayload) :
    ServiceState :=
  match s.store.messages.getLast? with
  | some lastMessage =>
      if lastMessage.role = Role.assistant then
        let st := s.store.finalizeAssistantMessage lastMessage.id
          payload.final_answer (metadataOfPayload payload)
        { s with store := st }
      else s
  | none => s

/-- TS `handleError(payload)`: surface the message as an `error` status,
then, when the payload is not recoverable, perform a full
`disconnect()`. -/
def handleError (s : ServiceState) (payload : ErrorPayload) : ServiceState :=
  let st := s.store.setConnectionStatus ConnectionStatus.error (some payload.message)
  let s1 := { s with store := st }
  if ¬ payload.recoverable then s1.disconnect else s1

end ServiceState

/-- Folding a list of `token` envelopes through the dispatcher. -/
def processTokenEnvelopes (s : ServiceState) (payloads : List TokenPayload) : ServiceState :=
  payloads.foldl ServiceState.handleToken s

/-- Number of messages that are assistant messages with
`isStreaming = true`. -/
def streamingAssistantCount (messages : List ChatMessage) : Nat :=
  messages.countP (fun m => m.role == Role.assistant && m.isStreaming == some true)

/-- The store's sanctioned mutating operations on its chat/connection
state (session.store.ts), reified as an operation language so that
reachability can be quantified over. Fresh ids and instants are carried
by the operations. -/
inductive StoreOp where
  | addUserMessage (content id : String) (now : Int)
  | startAssistantMessage (id : String) (now : Int)
  | appendToStreamingContent (chunk : String)
  | finalizeAssistantMessage (messageId finalContent : String) (metadata : FinalizeMetadata)
  | addReasoningStep (step : ReasoningStep)
  | setPendingClarification (request : Option ClarificationRequestPayload) (now : Int)
  | setConnectionStatus (status : ConnectionStatus) (error : Option String)
  | updateContextVersion (version : Int)
  | clearChatState
  | setCurrentSession (sessionId : Option String)
deriving DecidableEq, Repr

/-- Interpretation of one sanctioned store operation. -/
def applyOp (st : SessionStoreState) : StoreOp → SessionStoreState
  | StoreOp.addUserMessage content id now => (st.addUserMessage content id now).1
  | StoreOp.startAssistantMessage id now => (st.startAssistantMessage id now).1
  | StoreOp.appendToStreamingContent chunk => st.appendToStreamingContent chunk
  | StoreOp.finalizeAssistantMessage messageId finalContent metadata =>
      st.finalizeAssistantMessage messageId finalContent metadata
  | StoreOp.addReasoningStep step => st.addReasoningStep step
  | StoreOp.setPendingClarification request now => st.setPendingClarification request now
  | StoreOp.setConnectionStatus status error => st.setConnectionStatus status error
  | StoreOp.updateContextVersion version => st.updateContextVersion version
  | StoreOp.clearChatState => st.clearChatState
  | StoreOp.setCurrentSession sessionId => st.setCurrentSession sessionId

/-- Interpretation of a sequence of sanctioned store operations. -/
def applyOps (st : SessionStoreState) (ops : List StoreOp) : SessionStoreState :=
  ops.foldl applyOp st

/-- A trace discipline: `startAssistantMessage` (also as performed by
`sendQuery`/`sendClarificationResponse`) is only invoked while no
assistant message is currently streaming. -/
def guardOk (st : SessionStoreState) : StoreOp → Bool
  | StoreOp.startAssistantMessage _ _ => streamingAssistantCount st.messages == 0
  | _ => true

/-- Whether every operation of the trace respects `guardOk` in the
state it fires on. -/
def guardedFrom (st : SessionStoreState) : List StoreOp → Bool
  | [] => true
  | op :: ops => guardOk st op && guardedFrom (applyOp st op) ops

/-- Proof-side direct recursion equivalent to the `findIndex`-based
upsert inside `addReasoningStep`; the equivalence is proved in
`addReasoningStep_eq_upsertStep` below and every trace lemma goes
through this form. -/
def upsertStep (step : ReasoningStep) : List ReasoningStep → List ReasoningStep
  | [] => [step]
  | x :: xs =>
      if x.stepIndex == step.stepIndex then step :: xs
      else x :: upsertStep step xs

/-- Sample session id used by concrete witnesses. -/
def sid1 : String := "sess-1"

/-!  Helper lemmas shared by several claims.  -/

theorem join_cons (c : String) (l : List String) :
    String.join (c :: l) = c ++ String.join l := by
  apply String.ext
  simp [String.data_join]

theorem processTokenEnvelopes_eq (s : ServiceState) (ps : List TokenPayload) :
    processTokenEnvelopes s ps =
      { s with store :=
          s.store.appendToStreamingContent (String.join (ps.map TokenPayload.chunk)) } := by
  induction ps generalizing s with
  | nil =>
    cases s with
    | mk so ra pa csid cmid store =>
      cases store
      simp [processTokenEnvelopes, SessionStoreState.appendToStreamingContent, String.join]
  | cons p ps ih =>
    have hstep : processTokenEnvelopes s (p :: ps) =
        processTokenEnvelopes (s.handleToken p) ps := rfl
    rw [hstep, ih]
    cases s with
    | mk so ra pa csid cmid store =>
      cases store
      simp [ServiceState.handleToken, SessionStoreState.appendToStreamingContent,
        join_cons, String.append_assoc]

/-- C1: the reconnection attempt counter starts at 0 and is capped at 5
attempts; with a session bound, the delay scheduled before retry
attempt n (1-indexed, i.e. fired with the counter at n-1) equals
min(1000 * 2^n, 30000) ms, which for n = 1..5 is exactly 2000, 4000,
8000, 16000, 30000 ms; once the counter has reached 5 no further retry
is scheduled and the status becomes error with the message
"Connection failed after multiple attempts". -/
theorem reconnect_policy (s : ServiceState) (n : Nat)
    (hsid : s.currentSessionId.isSome = true) :
    ServiceState.initial.reconnectAttempts = 0 ∧
    (1 ≤ n → n ≤ 5 → s.reconnectAttempts = n - 1 →
      s.handleDisconnect.2 = some (min (1000 * 2 ^ n) 30000) ∧
      s.handleDisconnect.2 = some ([2000, 4000, 8000, 16000, 30000].getD (n - 1) 0)) ∧
    (maxReconnectAttempts ≤ s.reconnectAttempts →
      s.handleDisconnect.2 = none ∧
      s.handleDisconnect.1.store.wsStatus = ConnectionStatus.error ∧
      s.handleDisconnect.1.store.wsError = some exhaustionMessage) := by
  refine ⟨rfl, ?_, ?_⟩
  · intro h1 h5 hn
    have hcond : s.reconnectAttempts < maxReconnectAttempts ∧ s.currentSessionId.isSome := by
      refine ⟨?_, by simp [hsid]⟩
      simp only [maxReconnectAttempts, hn]
      omega
    have hsum : s.reconnectAttempts + 1 = n := by omega
    constructor
    · simp [ServiceState.handleDisconnect, hcond, hsum]
    · simp only [ServiceState.handleDisconnect, hcond, if_pos, hsum]
      interval_cases n <;> simp
  · intro hge
    have hcond : ¬ (s.reconnectAttempts < maxReconnectAttempts ∧ s.currentSessionId.isSome) := by
      rintro ⟨hlt, -⟩
      omega
    simp [ServiceState.handleDisconnect, hcond, SessionStoreState.setConnectionStatus]

/-- Witness for C1: in the initial state with a session bound, the first
retry is scheduled after exactly 2000 ms. -/
theorem reconnect_policy_witness :
    (ServiceState.handleDisconnect
      { ServiceState.initial with currentSessionId := some sid1 }).2 = some 2000 := by
  have h := (reconnect_policy { ServiceState.initial with currentSessionId := some sid1 } 1
    rfl).2.1 (by decide) (by decide) rfl
  simpa using h.1

/-- C2: processing any finite sequence of token envelopes starting from
an empty streaming accumulator leaves the accumulator equal to the
literal concatenation of the chunks in arrival order. -/
theorem token_accumulator_concat (s : ServiceState) (ps : List TokenPayload)
    (h : s.store.streamingContent = "") :
    (processTokenEnvelopes s ps).store.streamingContent =
      String.join (ps.map TokenPayload.chunk) := by
  rw [processTokenEnvelopes_eq]
  simp [SessionStoreState.appendToStreamingContent, h]

/-- Witness for C2: chunks "ab" then "cd" from the initial (empty)
accumulator produce "abcd". -/
theorem token_accumulator_concat_witness :
    (processTokenEnvelopes ServiceState.initial
      [{ chunk := "ab", node := "n", token_index := 0 },
       { chunk := "cd", node := "n", token_index := 1 }]).store.streamingContent = "abcd" := by
  have h := token_accumulator_concat ServiceState.initial
    [{ chunk := "ab", node := "n", token_index := 0 },
     { chunk := "cd", node := "n", token_index := 1 }] rfl
  rw [h]
  decide

/-- C3: a single tokens envelope carrying a chunk list is equivalent, on
the whole resulting state (in particular on the streaming accumulator,
from any starting accumulator value), to processing the chunks one at a
time as token envelopes in the same order; the handler performs the
append as one store mutation of the joined string. -/
theorem tokens_envelope_equiv (s : ServiceState) (chunks : List String)
    (nd : String) (ti : Int) :
    s.handleTokens { chunks := chunks, node := nd } =
      processTokenEnvelopes s
        (chunks.map (fun c => { chunk := c, node := nd, token_index := ti })) := by
  rw [processTokenEnvelopes_eq]
  simp [ServiceState.handleTokens, List.map_map, Function.comp_def]

/-- Generic helper: mapping a function that fixes every element of a
list is the identity on that list. -/
theorem map_eq_self_of_fixes {α : Type} (l : List α) (f : α → α)
    (h : ∀ m ∈ l, f m = m) : l.map f = l := by
  induction l with
  | nil => rfl
  | cons x xs ih =>
    simp only [List.map_cons, h x (by simp)]
    rw [ih (fun m hm => h m (by simp [hm]))]

/-- C8: after `disconnect()` the pending reconnection timer is
neutralized by its fire-time validity check (the session binding is
null, so firing performs no connect and leaves the state unchanged)
and the keepalive interval is cancelled outright, so no ping can fire. -/
theorem disconnect_neutralizes_pending_timers (s : ServiceState) (token : Option String) :
    s.disconnect.reconnectTimerFire token = (s.disconnect, false) ∧
    s.disconnect.pingActive = false ∧
    s.disconnect.pingTimerFire = none := by
  refine ⟨?_, rfl, ?_⟩
  · cases token <;> rfl
  · simp [ServiceState.pingTimerFire, ServiceState.disconnect, ServiceState.stopPingInterval]

/-- C9: sending is a silent no-op — state unchanged (hence no user
message added) and nothing written — unless the status is connected and
a stream handle exists; the exception is `cancel`, which is written
exactly when a stream handle exists, regardless of status. -/
theorem send_gating (s : ServiceState) (content qid value : String) (text : Option String)
    (incl : Bool) (uid aid : String) (n1 n2 : Int) :
    (¬ (s.socketOpen = true ∧ s.store.wsStatus = ConnectionStatus.connected) →
      s.sendQuery content incl uid aid n1 = (s, none) ∧
      s.sendClarificationResponse qid value text aid n2 = (s, none)) ∧
    (s.sendCancel = if s.socketOpen then (s, some ClientMsg.cancel) else (s, none)) := by
  constructor
  · intro h
    have hcond : ¬ s.socketOpen ∨ s.store.wsStatus ≠ ConnectionStatus.connected := by
      by_cases hso : s.socketOpen = true
      · exact Or.inr (fun hw => h ⟨hso, hw⟩)
      · exact Or.inl (by simpa using hso)
    constructor
    · unfold ServiceState.sendQuery
      rw [if_pos hcond]
    · unfold ServiceState.sendClarificationResponse
      rw [if_pos hcond]
  · by_cases hso : s.socketOpen = true
    · simp [ServiceState.sendCancel, hso]
    · have hf : s.socketOpen = false := by simpa using hso
      simp [ServiceState.sendCancel, hf]

/-- Witness for C9: with no socket open (initial state), `sendQuery` is
dropped with no state change, and `sendCancel` writes nothing. -/
theorem send_gating_witness :
    ServiceState.sendQuery ServiceState.initial sid1 true sid1 sid1 0 =
      (ServiceState.initial, none) ∧
    ServiceState.sendCancel ServiceState.initial = (ServiceState.initial, none) := by
  have h := send_gating ServiceState.initial sid1 sid1 sid1 none true sid1 sid1 0 0
  refine ⟨(h.1 (by decide)).1, ?_⟩
  have h2 := h.2
  simpa using h2

/-- C10: finalizing with a messageId that matches no message leaves the
messages list unchanged while still clearing the thinking flag and
resetting the streaming accumulator. -/
theorem finalize_unknown_id (st : SessionStoreState) (mid fc : String)
    (md : FinalizeMetadata) (h : ∀ m ∈ st.messages, m.id ≠ mid) :
    st.finalizeAssistantMessage mid fc md =
      { st with isAgentThinking := false, streamingContent := "" } := by
  cases st with
  | mk csid ws we cv msgs rs th sc pc =>
    simp only [SessionStoreState.finalizeAssistantMessage]
    congr 1
    exact map_eq_self_of_fixes msgs _ (fun m hm => if_neg (h m hm))

/-- Sample chat message used by the C10 witness. -/
def msgUserHello : ChatMessage :=
  { id := "u-1"
    role := Role.user
    content := "hello"
    timestamp := 0
    isStreaming := none
    queryType := none
    confidence := none
    sources := none
    calculations := none
    assumptions := none
    suggestedFollowups := none }

/-- Store state holding one user message, for the C10 witness. -/
def stOneUser : SessionStoreState :=
  { SessionStoreState.initial with messages := [msgUserHello], isAgentThinking := true }

/-- Unmatched message id for the C10 witness. -/
def midMissing : String := "no-such-id"

/-- Final content string for the C10 witness. -/
def fcFinal : String := "final text"

/-- Empty metadata record for witnesses. -/
def mdNone : FinalizeMetadata :=
  { queryType := none
    confidence := none
    sources := none
    calculations := none
    assumptions := none
    suggestedFollowups := none }

/-- Witness for C10: finalizing an unknown id on a store with one user
message only clears the thinking flag and the accumulator. -/
theorem finalize_unknown_id_witness :
    stOneUser.finalizeAssistantMessage midMissing fcFinal mdNone =
      { stOneUser with isAgentThinking := false, streamingContent := "" } :=
  finalize_unknown_id stOneUser midMissing fcFinal mdNone (by decide)

/-- Non-recoverable error payload used for C5. -/
def errPayloadFatal : ErrorPayload :=
  { code := "E1", message := "boom", recoverable := false }

/-- Recoverable error payload used for C5. -/
def errPayloadSoft : ErrorPayload :=
  { code := "E2", message := "try again", recoverable := true }

/-- C5 counterexample: for a `recoverable=false` error envelope the
handler ends with `wsError = null`, not with the envelope's message —
the explicit disconnect it performs resets the error it just surfaced,
so "after the handler completes the error is surfaced to state with
wsError populated" fails. -/
theorem error_nonrecoverable_wsError_cleared :
    (ServiceState.initial.handleError errPayloadFatal).store.wsError = none ∧
    (ServiceState.initial.handleError errPayloadFatal).store.wsError ≠
      some errPayloadFatal.message ∧
    (ServiceState.initial.handleError errPayloadFatal).store.wsStatus =
      ConnectionStatus.disconnected := by
  decide

/-- C5 amended: the handler first sets status error with wsError holding
the envelope's message; when the payload is recoverable that state
persists after the handler completes; when recoverable=false the
handler additionally performs an explicit disconnect — socket closed,
keepalive stopped, session binding cleared, status disconnected — which
also resets wsError to null, and the reconnection policy is not
invoked (the attempt counter is untouched and no retry is scheduled). -/
theorem error_handler_behavior (s : ServiceState) (p : ErrorPayload) :
    (p.recoverable = true →
      s.handleError p =
        { s with store :=
            s.store.setConnectionStatus ConnectionStatus.error (some p.message) }) ∧
    (p.recoverable = false →
      (s.handleError p).store.wsStatus = ConnectionStatus.disconnected ∧
      (s.handleError p).store.wsError = none ∧
      (s.handleError p).socketOpen = false ∧
      (s.handleError p).pingActive = false ∧
      (s.handleError p).currentSessionId = none ∧
      (s.handleError p).reconnectAttempts = s.reconnectAttempts ∧
      (s.handleError p).store.messages = s.store.messages) := by
  constructor
  · intro h
    simp [ServiceState.handleError, h]
  · intro h
    simp [ServiceState.handleError, h, ServiceState.disconnect,
      ServiceState.stopPingInterval, SessionStoreState.setConnectionStatus]

/-- Witness for C5 amended: a recoverable error envelope leaves
`wsError` holding the message and status error. -/
theorem error_handler_behavior_witness :
    (ServiceState.initial.handleError errPayloadSoft).store.wsError =
      some errPayloadSoft.message ∧
    (ServiceState.initial.handleError errPayloadSoft).store.wsStatus =
      ConnectionStatus.error := by
  have h := (error_handler_behavior ServiceState.initial errPayloadSoft).1 rfl
  rw [h]
  exact ⟨rfl, rfl⟩

/-- Non-streaming assistant message used for the C4 counterexample
(such a message arises, e.g., after a first `response_complete`
already finalized it). -/
def msgOldAssistant : ChatMessage :=
  { id := "m1"
    role := Role.assistant
    content := "old answer"
    timestamp := 0
    isStreaming := some false
    queryType := none
    confidence := none
    sources := none
    calculations := none
    assumptions := none
    suggestedFollowups := none }

/-- Service state whose last message is a non-streaming assistant
message, for the C4 counterexample. -/
def stNonStreaming : ServiceState :=
  { ServiceState.initial with
      store := { SessionStoreState.initial with messages := [msgOldAssistant] } }

/-- Concrete `response_complete` payload for C4. -/
def rcPayload : ResponseCompletePayload :=
  { message_id := "x-1"
    final_answer := "new answer"
    confidence := Confidence.high
    query_type := "general"
    sources := []
    calculations := []
    assumptions := []
    suggested_followups := [] }

/-- C4 counterexample: the dispatcher checks only that the last message
has the assistant role, not that it is streaming — on a last message
that is assistant but NOT streaming, `response_complete` is not a no-op
on the messages list: the message's content is overwritten. -/
theorem response_complete_mutates_nonstreaming :
    (stNonStreaming.store.messages.getLast?.map ChatMessage.isStreaming =
      some (some false)) ∧
    (stNonStreaming.handleResponseComplete rcPayload).store.messages ≠
      stNonStreaming.store.messages := by
  decide

/-- C4 amended: `response_complete` finalizes the most recent message
whenever it is an assistant message, regardless of its isStreaming
flag — setting final content, clearing isStreaming, attaching
queryType/confidence/sources/calculations/assumptions/
suggestedFollowups, clearing the thinking flag and the streaming
accumulator; when the messages list is empty or its last message is
not an assistant message the handler is a no-op (no crash, no
mutation at all). -/
theorem response_complete_behavior (s : ServiceState) (p : ResponseCompletePayload) :
    (∀ lastMsg, s.store.messages.getLast? = some lastMsg →
      lastMsg.role = Role.assistant →
      (s.handleResponseComplete p).store.isAgentThinking = false ∧
      (s.handleResponseComplete p).store.streamingContent = "" ∧
      (s.handleResponseComplete p).store.messages =
        s.store.messages.map (fun msg =>
          if msg.id = lastMsg.id then
            { msg with
              content := p.final_answer
              isStreaming := some false
              queryType := some p.query_type
              confidence := some p.confidence
              sources := some p.sources
              calculations := some p.calculations
              assumptions := some p.assumptions
              suggestedFollowups := some p.suggested_followups }
          else msg)) ∧
    (∀ lastMsg, s.store.messages.getLast? = some lastMsg →
      lastMsg.role ≠ Role.assistant →
      s.handleResponseComplete p = s) ∧
    (s.store.messages.getLast? = none → s.handleResponseComplete p = s) := by
  refine ⟨?_, ?_, ?_⟩
  · intro lastMsg hlast hrole
    simp [ServiceState.handleResponseComplete, hlast, hrole,
      SessionStoreState.finalizeAssistantMessage, ServiceState.metadataOfPayload]
  · intro lastMsg hlast hrole
    simp [ServiceState.handleResponseComplete, hlast, hrole]
  · intro hnone
    simp [ServiceState.handleResponseComplete, hnone]

/-- Streaming assistant placeholder used by the C4 witness. -/
def msgStreamingAssistant : ChatMessage :=
  { id := "m2"
    role := Role.assistant
    content := ""
    timestamp := 0
    isStreaming := some true
    queryType := none
    confidence := none
    sources := none
    calculations := none
    assumptions := none
    suggestedFollowups := none }

/-- Service state whose last message is a streaming assistant
placeholder, for the C4 witness. -/
def stStreaming : ServiceState :=
  { ServiceState.initial with
      store := { SessionStoreState.initial with
        messages := [msgStreamingAssistant]
        isAgentThinking := true
        streamingContent := "partial" } }

/-- Witness for C4 amended: a streaming assistant last message is
finalized in place and the thinking flag and accumulator are cleared. -/
theorem response_complete_behavior_witness :
    (stStreaming.handleResponseComplete rcPayload).store.isAgentThinking = false ∧
    (stStreaming.handleResponseComplete rcPayload).store.streamingContent = "" ∧
    (stStreaming.handleResponseComplete rcPayload).store.messages =
      [{ msgStreamingAssistant with
          content := rcPayload.final_answer
          isStreaming := some false
          queryType := some rcPayload.query_type
          confidence := some rcPayload.confidence
          sources := some rcPayload.sources
          calculations := some rcPayload.calculations
          assumptions := some rcPayload.assumptions
          suggestedFollowups := some rcPayload.suggested_followups }] := by
  have h := (response_complete_behavior stStreaming rcPayload).1 msgStreamingAssistant rfl rfl
  refine ⟨h.1, h.2.1, ?_⟩
  rw [h.2.2]
  decide

/-- The `findIndex`-plus-overwrite upsert of the source equals the
direct recursion `upsertStep`. -/
theorem findIdx_set_eq_upsertStep (step : ReasoningStep) (l : List ReasoningStep) :
    (match l.findIdx? (fun s => s.stepIndex == step.stepIndex) with
     | some i => l.set i step
     | none => l ++ [step]) = upsertStep step l := by
  induction l with
  | nil => rfl
  | cons x xs ih =>
    rw [List.findIdx?_cons]
    by_cases hx : (x.stepIndex == step.stepIndex) = true
    · simp [hx, upsertStep]
    · rw [if_neg (by simp [hx]), List.findIdx?_succ]
      cases h : xs.findIdx? (fun s => s.stepIndex == step.stepIndex) with
      | none =>
        rw [h] at ih
        simp [upsertStep, hx, ← ih]
      | some j =>
        rw [h] at ih
        simp [upsertStep, hx, ← ih]

/-- The reasoning trace after `addReasoningStep` is the upsert of the
previous trace. -/
theorem addReasoningStep_eq_upsertStep (st : SessionStoreState) (step : ReasoningStep) :
    (st.addReasoningStep step).reasoningSteps = upsertStep step st.reasoningSteps := by
  simp only [SessionStoreState.addReasoningStep]
  exact findIdx_set_eq_upsertStep step st.reasoningSteps

/-- Upserting a step whose key occurs at most once leaves exactly that
step as the sole entry with its key. -/
theorem upsertStep_filter_key (step : ReasoningStep) (l : List ReasoningStep)
    (h : (l.filter (fun s => s.stepIndex == step.stepIndex)).length ≤ 1) :
    (upsertStep step l).filter (fun s => s.stepIndex == step.stepIndex) = [step] := by
  induction l with
  | nil => simp [upsertStep]
  | cons x xs ih =>
    by_cases hx : (x.stepIndex == step.stepIndex) = true
    · have hfx : xs.filter (fun s => s.stepIndex == step.stepIndex) = [] := by
        simp only [List.filter_cons, hx, if_true, List.length_cons] at h
        exact List.length_eq_zero.mp (by omega)
      simp [upsertStep, hx, List.filter_cons, hfx]
    · have hx' : (x.stepIndex == step.stepIndex) = false := by simpa using hx
      have hh : (xs.filter (fun s => s.stepIndex == step.stepIndex)).length ≤ 1 := by
        simpa [List.filter_cons, hx'] using h
      simp [upsertStep, hx', List.filter_cons, ih hh]

/-- Upserting never changes the entries carrying other keys, nor their
relative order. -/
theorem upsertStep_filter_ne (step : ReasoningStep) (l : List ReasoningStep) :
    (upsertStep step l).filter (fun s => s.stepIndex != step.stepIndex) =
      l.filter (fun s => s.stepIndex != step.stepIndex) := by
  induction l with
  | nil => simp [upsertStep]
  | cons x xs ih =>
    by_cases hx : (x.stepIndex == step.stepIndex) = true
    · have heq : x.stepIndex = step.stepIndex := by simpa using hx
      simp [upsertStep, hx, List.filter_cons, heq]
    · simp [upsertStep, hx, List.filter_cons, ih]

/-- Upserting a fresh key appends the step after all existing entries. -/
theorem upsertStep_fresh (step : ReasoningStep) (l : List ReasoningStep)
    (h : step.stepIndex ∉ l.map ReasoningStep.stepIndex) :
    upsertStep step l = l ++ [step] := by
  induction l with
  | nil => rfl
  | cons x xs ih =>
    simp only [List.map_cons, List.mem_cons, not_or] at h
    have hx : (x.stepIndex == step.stepIndex) = false := by
      simp
      exact fun e => h.1 e.symm
    simp [upsertStep, hx, ih (by simpa using h.2)]

/-- Overwriting the found position with an element still satisfying the
predicate leaves the first hit of `findIdx?` where it was. -/
theorem findIdx?_set_of_found {α : Type} (p : α → Bool) (l : List α) (i : Nat) (a : α)
    (h : l.findIdx? p = some i) (ha : p a = true) :
    (l.set i a).findIdx? p = some i := by
  induction l generalizing i with
  | nil => simp at h
  | cons x xs ih =>
    rw [List.findIdx?_cons] at h
    by_cases hx : p x = true
    · rw [if_pos hx] at h
      obtain rfl : (0 : Nat) = i := by simpa using h
      simp [List.findIdx?_cons, ha]
    · rw [if_neg hx, List.findIdx?_succ] at h
      cases hj : xs.findIdx? p with
      | none =>
        rw [hj] at h
        simp at h
      | some j =>
        rw [hj] at h
        obtain rfl : j + 1 = i := by simpa using h
        rw [List.set_cons_succ, List.findIdx?_cons, if_neg hx, List.findIdx?_succ, ih j hj]
        rfl

/-- Appending an element that satisfies the predicate to a list with no
hit makes `findIdx?` find it at the old length. -/
theorem findIdx?_concat_of_none {α : Type} (p : α → Bool) (l : List α) (a : α)
    (h : l.findIdx? p = none) (ha : p a = true) :
    (l ++ [a]).findIdx? p = some l.length := by
  induction l with
  | nil => simp [List.findIdx?_cons, ha]
  | cons x xs ih =>
    rw [List.findIdx?_cons] at h
    by_cases hx : p x = true
    · rw [if_pos hx] at h
      exact absurd h (by simp)
    · rw [if_neg hx, List.findIdx?_succ] at h
      have hnone : xs.findIdx? p = none := by
        cases hj : xs.findIdx? p with
        | none => rfl
        | some j =>
          rw [hj] at h
          simp at h
      rw [List.cons_append, List.findIdx?_cons, if_neg hx, List.findIdx?_succ, ih hnone]
      rfl

/-- Overwriting the position right after a list at its concatenation
point replaces the appended element. -/
theorem set_concat_length {α : Type} (l : List α) (a b : α) :
    (l ++ [a]).set l.length b = l ++ [b] := by
  induction l with
  | nil => rfl
  | cons x xs ih =>
    simp only [List.cons_append, List.length_cons, List.set_cons_succ, ih]

/-- When the key is found at position i, `addReasoningStep` overwrites
exactly that position. -/
theorem addReasoningStep_of_found (st : SessionStoreState) (step : ReasoningStep) (i : Nat)
    (h : st.reasoningSteps.findIdx? (fun s => s.stepIndex == step.stepIndex) = some i) :
    (st.addReasoningStep step).reasoningSteps = st.reasoningSteps.set i step := by
  simp [SessionStoreState.addReasoningStep, h]

/-- When the key is absent, `addReasoningStep` appends the step. -/
theorem addReasoningStep_of_none (st : SessionStoreState) (step : ReasoningStep)
    (h : st.reasoningSteps.findIdx? (fun s => s.stepIndex == step.stepIndex) = none) :
    (st.addReasoningStep step).reasoningSteps = st.reasoningSteps ++ [step] := by
  simp [SessionStoreState.addReasoningStep, h]

/-- C6: the reasoning trace is keyed by stepIndex — delivering two steps
with the same index (each key occurring at most once beforehand, as in
every state reached from the empty trace) leaves exactly one entry for
that index, holding the later delivery; the re-delivered entry replaces
the prior one literally in place: when the key already sits at position
i the result is the old trace with position i overwritten (so every
other entry keeps its exact position and the relative order is
untouched), when the key is new both deliveries leave the old trace
with the step appended after all existing entries, and the entries
carrying all other indices are exactly what they were; a step with a
fresh index is appended at the end. -/
theorem reasoning_trace_upsert (st : SessionStoreState) (s1 s2 snew : ReasoningStep) (i : Nat)
    (hidx : s1.stepIndex = s2.stepIndex)
    (hcount : (st.reasoningSteps.filter (fun s => s.stepIndex == s2.stepIndex)).length ≤ 1)
    (hfresh : snew.stepIndex ∉ st.reasoningSteps.map ReasoningStep.stepIndex) :
    (((st.addReasoningStep s1).addReasoningStep s2).reasoningSteps.filter
        (fun s => s.stepIndex == s2.stepIndex) = [s2]) ∧
    (((st.addReasoningStep s1).addReasoningStep s2).reasoningSteps.filter
        (fun s => s.stepIndex != s2.stepIndex) =
      st.reasoningSteps.filter (fun s => s.stepIndex != s2.stepIndex)) ∧
    (st.reasoningSteps.findIdx? (fun s => s.stepIndex == s2.stepIndex) = some i →
      ((st.addReasoningStep s1).addReasoningStep s2).reasoningSteps =
        st.reasoningSteps.set i s2) ∧
    (st.reasoningSteps.findIdx? (fun s => s.stepIndex == s2.stepIndex) = none →
      ((st.addReasoningStep s1).addReasoningStep s2).reasoningSteps =
        st.reasoningSteps ++ [s2]) ∧
    ((st.addReasoningStep snew).reasoningSteps = st.reasoningSteps ++ [snew]) := by
  have e1 : (st.addReasoningStep s1).reasoningSteps = upsertStep s1 st.reasoningSteps :=
    addReasoningStep_eq_upsertStep st s1
  have e2 := addReasoningStep_eq_upsertStep (st.addReasoningStep s1) s2
  rw [e1] at e2
  have hs1key : (fun s => s.stepIndex == s2.stepIndex) s1 = true := by simp [hidx]
  have hs2key : (fun s => s.stepIndex == s2.stepIndex) s2 = true := by simp
  refine ⟨?_, ?_, ?_, ?_, ?_⟩
  · rw [e2]
    apply upsertStep_filter_key
    have hk : (upsertStep s1 st.reasoningSteps).filter
        (fun s => s.stepIndex == s1.stepIndex) = [s1] := by
      apply upsertStep_filter_key
      rw [hidx]
      exact hcount
    rw [← hidx]
    simp [hk]
  · rw [e2, upsertStep_filter_ne s2 (upsertStep s1 st.reasoningSteps), ← hidx]
    exact upsertStep_filter_ne s1 st.reasoningSteps
  · intro hpos
    have hpos1 : st.reasoningSteps.findIdx? (fun s => s.stepIndex == s1.stepIndex) = some i := by
      rw [hidx]
      exact hpos
    have f1 : (st.addReasoningStep s1).reasoningSteps = st.reasoningSteps.set i s1 :=
      addReasoningStep_of_found st s1 i hpos1
    have hfind : (st.addReasoningStep s1).reasoningSteps.findIdx?
        (fun s => s.stepIndex == s2.stepIndex) = some i := by
      rw [f1]
      exact findIdx?_set_of_found _ _ _ _ hpos hs1key
    rw [addReasoningStep_of_found (st.addReasoningStep s1) s2 i hfind, f1, List.set_set]
  · intro hnone
    have hnone1 : st.reasoningSteps.findIdx? (fun s => s.stepIndex == s1.stepIndex) = none := by
      rw [hidx]
      exact hnone
    have f1 : (st.addReasoningStep s1).reasoningSteps = st.reasoningSteps ++ [s1] :=
      addReasoningStep_of_none st s1 hnone1
    have hfind : (st.addReasoningStep s1).reasoningSteps.findIdx?
        (fun s => s.stepIndex == s2.stepIndex) = some st.reasoningSteps.length := by
      rw [f1]
      exact findIdx?_concat_of_none _ _ _ hnone hs1key
    rw [addReasoningStep_of_found (st.addReasoningStep s1) s2 st.reasoningSteps.length hfind,
      f1, set_concat_length]
  · rw [addReasoningStep_eq_upsertStep]
    exact upsertStep_fresh snew st.reasoningSteps hfresh

/-- Completed step with index 1, for the C6 witness. -/
def stepIdx1 : ReasoningStep :=
  { stepIndex := 1, node := "parse", status := StepStatus.completed,
    message := "done", timestamp := 0 }

/-- First delivery for index 2 (status processing), for the C6 witness. -/
def stepIdx2a : ReasoningStep :=
  { stepIndex := 2, node := "retrieve", status := StepStatus.processing,
    message := "working", timestamp := 1 }

/-- Second delivery for index 2 (status completed), for the C6 witness. -/
def stepIdx2b : ReasoningStep :=
  { stepIndex := 2, node := "retrieve", status := StepStatus.completed,
    message := "ok", timestamp := 2 }

/-- Fresh index 3, for the C6 witness. -/
def stepIdx3 : ReasoningStep :=
  { stepIndex := 3, node := "compute", status := StepStatus.processing,
    message := "running", timestamp := 3 }

/-- Store state whose trace holds the single entry of index 1, for the
C6 witness. -/
def stTrace : SessionStoreState :=
  { SessionStoreState.initial with reasoningSteps := [stepIdx1] }

/-- Store state whose trace already holds index 2 (status processing) at
position 1, for the in-place clause of the C6 witness. -/
def stTrace2 : SessionStoreState :=
  { SessionStoreState.initial with reasoningSteps := [stepIdx1, stepIdx2a] }

/-- Witness for C6: on a trace without index 2, delivering index 2 twice
appends exactly one entry, holding the final delivery; on a trace where
index 2 already sits at position 1, re-delivery overwrites position 1
in place, leaving the index-1 entry at position 0; index 3 is appended
at the end. -/
theorem reasoning_trace_upsert_witness :
    (((stTrace.addReasoningStep stepIdx2a).addReasoningStep stepIdx2b).reasoningSteps.filter
        (fun s => s.stepIndex == stepIdx2b.stepIndex) = [stepIdx2b]) ∧
    (((stTrace.addReasoningStep stepIdx2a).addReasoningStep stepIdx2b).reasoningSteps =
      stTrace.reasoningSteps ++ [stepIdx2b]) ∧
    (((stTrace2.addReasoningStep stepIdx2a).addReasoningStep stepIdx2b).reasoningSteps =
      stTrace2.reasoningSteps.set 1 stepIdx2b) ∧
    (((stTrace2.addReasoningStep stepIdx2a).addReasoningStep stepIdx2b).reasoningSteps =
      [stepIdx1, stepIdx2b]) ∧
    ((stTrace.addReasoningStep stepIdx3).reasoningSteps =
      stTrace.reasoningSteps ++ [stepIdx3]) := by
  have h1 := reasoning_trace_upsert stTrace stepIdx2a stepIdx2b stepIdx3 0 rfl
    (by decide) (by decide)
  have h2 := reasoning_trace_upsert stTrace2 stepIdx2a stepIdx2b stepIdx3 1 rfl
    (by decide) (by decide)
  refine ⟨h1.1, h1.2.2.2.1 (by decide), h2.2.2.1 (by decide), ?_, h1.2.2.2.2⟩
  rw [h2.2.2.1 (by decide)]
  decide

/-- Sample generated id, for C7. -/
def idA : String := "uuid-a"

/-- Second sample generated id, for C7. -/
def idB : String := "uuid-b"

/-- Sample final content, for the C7 witness. -/
def doneContent : String := "done"

/-- C7 counterexample: two consecutive `startAssistantMessage` calls —
exactly what two `sendQuery` calls while connected, or a clarification
round-trip (the clarification request clears only the thinking flag,
not the placeholder's isStreaming), perform — leave two assistant
messages with isStreaming = true, so the invariant fails on a state
reachable by sanctioned operations. -/
theorem streaming_invariant_violated :
    ¬ (streamingAssistantCount
        (applyOps SessionStoreState.initial
          [StoreOp.startAssistantMessage idA 0,
           StoreOp.startAssistantMessage idB 0]).messages ≤ 1) := by
  decide

/-- Mapping a function that either fixes a message or makes it
non-streaming cannot increase the number of streaming assistant
messages. -/
theorem streamingAssistantCount_map_le (l : List ChatMessage) (f : ChatMessage → ChatMessage)
    (hf : ∀ m, f m = m ∨ (f m).isStreaming = some false) :
    streamingAssistantCount (l.map f) ≤ streamingAssistantCount l := by
  unfold streamingAssistantCount
  rw [List.countP_map]
  apply List.countP_mono_left
  intro m hm hp
  simp only [Function.comp] at hp
  rcases hf m with h | h
  · rwa [h] at hp
  · rw [Bool.and_eq_true] at hp
    rw [h] at hp
    simp at hp

/-- C7 amended: in every state reachable from a state with at most one
streaming assistant message by sanctioned store operations in which
`startAssistantMessage` is only invoked while no assistant message is
streaming (the discipline `canSendQuery` is meant to enforce), at most
one assistant message has isStreaming = true. -/
theorem streaming_invariant_guarded (st : SessionStoreState) (ops : List StoreOp)
    (hst : streamingAssistantCount st.messages ≤ 1)
    (hg : guardedFrom st ops = true) :
    streamingAssistantCount (applyOps st ops).messages ≤ 1 := by
  revert st
  induction ops with
  | nil =>
    intro st hst hg
    simpa [applyOps] using hst
  | cons op ops ih =>
    intro st hst hg
    have hsplit : guardOk st op = true ∧ guardedFrom (applyOp st op) ops = true := by
      simpa [guardedFrom, Bool.and_eq_true] using hg
    have hstep : streamingAssistantCount (applyOp st op).messages ≤ 1 := by
      cases op with
      | addUserMessage content id now =>
        simpa [applyOp, SessionStoreState.addUserMessage, streamingAssistantCount,
          List.countP_append] using hst
      | startAssistantMessage id now =>
        have h0 : List.countP
            (fun m => m.role == Role.assistant && m.isStreaming == some true)
            st.messages = 0 := by
          simpa [guardOk, streamingAssistantCount] using hsplit.1
        simp [applyOp, SessionStoreState.startAssistantMessage, streamingAssistantCount,
          List.countP_append, List.countP_cons, h0]
      | appendToStreamingContent chunk =>
        simpa [applyOp, SessionStoreState.appendToStreamingContent,
          streamingAssistantCount] using hst
      | finalizeAssistantMessage mid fc md =>
        have hle := streamingAssistantCount_map_le st.messages
          (fun msg =>
            if msg.id = mid then
              { msg with
                content := fc
                isStreaming := some false
                queryType := md.queryType
                confidence := md.confidence
                sources := md.sources
                calculations := md.calculations
                assumptions := md.assumptions
                suggestedFollowups := md.suggestedFollowups }
            else msg)
          (fun m => by
            by_cases hid : m.id = mid
            · right
              simp [hid]
            · left
              simp [hid])
        have hmsg : (applyOp st (StoreOp.finalizeAssistantMessage mid fc md)).messages =
            st.messages.map (fun msg =>
              if msg.id = mid then
                { msg with
                  content := fc
                  isStreaming := some false
                  queryType := md.queryType
                  confidence := md.confidence
                  sources := md.sources
                  calculations := md.calculations
                  assumptions := md.assumptions
                  suggestedFollowups := md.suggestedFollowups }
              else msg) := rfl
        rw [hmsg]
        exact le_trans hle hst
      | addReasoningStep step =>
        simpa [applyOp, SessionStoreState.addReasoningStep,
          streamingAssistantCount] using hst
      | setPendingClarification request now =>
        cases request with
        | none =>
          simpa [applyOp, SessionStoreState.setPendingClarification,
            streamingAssistantCount] using hst
        | some r =>
          simpa [applyOp, SessionStoreState.setPendingClarification,
            streamingAssistantCount] using hst
      | setConnectionStatus status error =>
        simpa [applyOp, SessionStoreState.setConnectionStatus,
          streamingAssistantCount] using hst
      | updateContextVersion version =>
        simpa [applyOp, SessionStoreState.updateContextVersion,
          streamingAssistantCount] using hst
      | clearChatState =>
        simp [applyOp, SessionStoreState.clearChatState, streamingAssistantCount]
      | setCurrentSession sessionId =>
        cases sessionId with
        | none =>
          simp [applyOp, SessionStoreState.setCurrentSession,
            SessionStoreState.clearChatState, streamingAssistantCount]
        | some sid =>
          simpa [applyOp, SessionStoreState.setCurrentSession,
            streamingAssistantCount] using hst
    have hfold : applyOps st (op :: ops) = applyOps (applyOp st op) ops := rfl
    rw [hfold]
    exact ih (applyOp st op) hstep hsplit.2

/-- Witness for C7 amended: a guarded trace — start a turn, finalize it,
start another — keeps at most one streaming assistant message. -/
theorem streaming_invariant_guarded_witness :
    streamingAssistantCount
      (applyOps SessionStoreState.initial
        [StoreOp.startAssistantMessage idA 0,
         StoreOp.finalizeAssistantMessage idA doneContent mdNone,
         StoreOp.startAssistantMessage idB 1]).messages ≤ 1 :=
  streaming_invariant_guarded SessionStoreState.initial
    [StoreOp.startAssistantMessage idA 0,
     StoreOp.finalizeAssistantMessage idA doneContent mdNone,
     StoreOp.startAssistantMessage idB 1] (by decide) (by decide)

end Shapy
